import Mathlib

/-!
Shallow embedding of the order fulfillment pipeline of the repository:
the order store and status updates (backend OrderService), the Stripe
webhook endpoint and its event handlers (backend payment routes), the
refund path (AdminService.processRefund over PaymentService.processRefund)
and the customer download route (orders routes). Monetary amounts are
modelled as rationals, timestamps as natural numbers (milliseconds), and
the external collaborators (document generation, email, payment gateway)
as explicit outcome parameters. Database errors and thrown exceptions are
modelled with Option and explicit success flags; state is passed
explicitly (the database is a list of orders, side effect counters live
in a World record).
-/

/-- Order status column: pending, paid, failed or refunded. -/
inductive OrderStatus
  | pending
  | paid
  | failed
  | refunded
deriving DecidableEq, Repr

/-- Row of the orders table, as read and written by the backend services.
The formData JSON blob is kept opaque as a string. -/
structure Order where
  id : String
  templateId : String
  customerEmail : String
  formData : String
  stripePaymentId : String
  amount : ℚ
  status : OrderStatus
  pdfUrl : Option String
  docxUrl : Option String
  downloadExpiry : Option Nat
  createdAt : Nat
  updatedAt : Nat
deriving DecidableEq, Repr

/-- Template row: only the fields the order pipeline reads. -/
structure Template where
  id : String
  price : ℚ
deriving DecidableEq, Repr

/-- Database lookup by primary key (prisma findUnique on id): first row
with a matching id. -/
def findOrder (store : List Order) (orderId : String) : Option Order :=
  store.find? (fun o => o.id == orderId)

/-- Database update of one row by primary key (prisma update on id). -/
def setOrder (store : List Order) (o : Order) : List Order :=
  store.map (fun x => if x.id == o.id then o else x)

/-- JavaScript truthiness of an optional string: undefined, null and the
empty string are falsy. -/
def strTruthy : Option String → Bool
  | some s => !s.isEmpty
  | none => false

/-- JavaScript truthiness of an optional number: undefined, null and 0 are
falsy. -/
def amtTruthy : Option ℚ → Bool
  | some a => a != 0
  | none => false

/-- Seven days in milliseconds, the download window added at creation. -/
def day7 : Nat := 7 * 24 * 60 * 60 * 1000

/-- Optional extra columns of updateOrderStatus (stripePaymentId, amount). -/
structure AdditionalData where
  stripePaymentId : Option String
  amount : Option ℚ
deriving DecidableEq, Repr

/-- Row transformation performed by OrderService.updateOrderStatus: the
status is written unconditionally; stripePaymentId and amount are written
only when truthy. -/
def applyStatusUpdate (o : Order) (status : OrderStatus) (add : AdditionalData)
    (now : Nat) : Order :=
  let o1 := { o with status := status }
  let o2 := if strTruthy add.stripePaymentId then
      { o1 with stripePaymentId := add.stripePaymentId.getD "" } else o1
  let o3 := if amtTruthy add.amount then
      { o2 with amount := add.amount.getD 0 } else o2
  { o3 with updatedAt := now }

/-- OrderService.createPendingOrder: looks up the template, then inserts a
pending order priced at the template price, with an empty stripePaymentId
and a download expiry of creation time plus seven days. Returns none when
the template is missing (the service throws). -/
def OrderService.createPendingOrder (templates : List Template)
    (store : List Order) (templateId formData customerEmail : String)
    (now : Nat) (newId : String) : Option (Order × List Order) :=
  match templates.find? (fun t => t.id == templateId) with
  | none => none
  | some template =>
    let order : Order := {
      id := newId
      templateId := templateId
      customerEmail := customerEmail
      formData := formData
      stripePaymentId := ""
      amount := template.price
      status := .pending
      pdfUrl := none
      docxUrl := none
      downloadExpiry := some (now + day7)
      createdAt := now
      updatedAt := now }
    some (order, store ++ [order])

/-- OrderService.updateOrderStatus: unconditional status write on the row
with the given id; none when the row does not exist (prisma update throws,
the service rethrows). There is no transition table and no check of the
current status. -/
def OrderService.updateOrderStatus (store : List Order) (orderId : String)
    (status : OrderStatus) (add : AdditionalData) (now : Nat) :
    Option (Order × List Order) :=
  match findOrder store orderId with
  | none => none
  | some o =>
    let updated := applyStatusUpdate o status add now
    some (updated, setOrder store updated)

/-- Row transformation performed by OrderService.updateOrderDocuments: a
field passed as undefined is skipped by prisma, a provided field is set. -/
def applyDocsUpdate (o : Order) (pdfUrl docxUrl : Option String)
    (now : Nat) : Order :=
  let o1 := match pdfUrl with
    | some u => { o with pdfUrl := some u }
    | none => o
  let o2 := match docxUrl with
    | some u => { o1 with docxUrl := some u }
    | none => o1
  { o2 with updatedAt := now }

/-- OrderService.updateOrderDocuments: writes the document URL columns of
the row with the given id, with no status check. -/
def OrderService.updateOrderDocuments (store : List Order) (orderId : String)
    (pdfUrl docxUrl : Option String) (now : Nat) : Option (List Order) :=
  match findOrder store orderId with
  | none => none
  | some o => some (setOrder store (applyDocsUpdate o pdfUrl docxUrl now))

/-- OrderService.getOrderByIdAndEmail: prisma findFirst with both the id
and the customerEmail in the where clause, compared by string equality. -/
def OrderService.getOrderByIdAndEmail (store : List Order)
    (orderId email : String) : Option Order :=
  store.find? (fun o => o.id == orderId && o.customerEmail == email)

/-- Metadata attached to a Stripe checkout session at creation time. -/
structure SessionMetadata where
  orderId : String
  templateId : String
  customerEmail : String
  formData : String
deriving DecidableEq, Repr

/-- The fields of a Stripe checkout session object that the webhook
handlers read. The amount total is in cents and may be null. -/
structure CheckoutSession where
  sessionId : String
  metadata : Option SessionMetadata
  paymentIntent : String
  amountTotal : Option Nat
deriving DecidableEq, Repr

/-- State threaded through the webhook pipeline: the orders table plus
counters of document generation invocations and confirmation emails. -/
structure World where
  store : List Order
  fulfillmentCount : Nat
  emailCount : Nat
deriving DecidableEq, Repr

/-- Outcomes of the external collaborators during one webhook delivery:
whether document generation and upload succeed, whether the confirmation
email send succeeds, and the current time. -/
structure Env where
  docGenOk : Bool
  emailOk : Bool
  now : Nat
deriving DecidableEq, Repr

/-- Destructuring of session.metadata with JavaScript truthiness: the
handler throws when the metadata object or any of its four fields is
missing or empty. -/
def metaTruthy : Option SessionMetadata → Option SessionMetadata
  | some md =>
    if md.orderId.isEmpty || md.templateId.isEmpty
        || md.customerEmail.isEmpty || md.formData.isEmpty then none
    else some md
  | none => none

/-- Signed document URLs produced by documentService.generateDocuments for
one order, keyed by order id and role. -/
def generatedPdfUrl (orderId : String) : String :=
  "signed/documents/" ++ orderId ++ "/" ++ orderId ++ ".pdf"

/-- Signed docx URL counterpart of generatedPdfUrl. -/
def generatedDocxUrl (orderId : String) : String :=
  "signed/documents/" ++ orderId ++ "/" ++ orderId ++ ".docx"

/-- handleCheckoutSessionCompleted: reads the session metadata, writes the
order to paid with the payment intent and the webhook amount, invokes
document generation, records the document URLs and sends the confirmation
email. The returned flag is false when the handler throws (the thrown
error is rethrown to the route); state changes made before the throw are
kept. -/
def handleCheckoutSessionCompleted (env : Env) (s : CheckoutSession)
    (w : World) : Bool × World :=
  match metaTruthy s.metadata with
  | none => (false, w)
  | some md =>
    let amt : ℚ := match s.amountTotal with
      | some t => if t != 0 then (t : ℚ) / 100 else 0
      | none => 0
    match OrderService.updateOrderStatus w.store md.orderId .paid
        ⟨some s.paymentIntent, some amt⟩ env.now with
    | none => (false, w)
    | some (_, store1) =>
      let w1 : World := { w with
        store := store1
        fulfillmentCount := w.fulfillmentCount + 1 }
      if !env.docGenOk then (false, w1)
      else
        match OrderService.updateOrderDocuments w1.store md.orderId
            (some (generatedPdfUrl md.orderId))
            (some (generatedDocxUrl md.orderId)) env.now with
        | none => (false, w1)
        | some store2 =>
          let w2 : World := { w1 with store := store2 }
          if !env.emailOk then (false, w2)
          else (true, { w2 with emailCount := w2.emailCount + 1 })

/-- handleCheckoutSessionExpired: when the session metadata carries a
truthy orderId, writes the order to failed unconditionally; all errors
are caught and logged inside this handler, so it never propagates one. -/
def handleCheckoutSessionExpired (env : Env) (s : CheckoutSession)
    (w : World) : World :=
  match s.metadata with
  | none => w
  | some md =>
    if md.orderId.isEmpty then w
    else
      match OrderService.updateOrderStatus w.store md.orderId .failed
          ⟨none, none⟩ env.now with
      | none => w
      | some (_, store1) => { w with store := store1 }

/-- Event carried by a webhook request, after signature verification. -/
inductive StripeEvent
  | checkoutSessionCompleted (s : CheckoutSession)
  | checkoutSessionExpired (s : CheckoutSession)
  | paymentIntentSucceeded
  | paymentIntentFailed
  | otherEvent
deriving DecidableEq, Repr

/-- Inbound webhook request: presence of the stripe-signature header,
validity of the signature over the raw body, and the event the verified
body parses to. -/
structure WebhookRequest where
  hasSignature : Bool
  signatureValid : Bool
  event : StripeEvent
deriving DecidableEq, Repr

/-- The POST webhook route: 400 when the signature header is missing; 400
when constructEvent rejects the signature (the body is never processed);
otherwise the event is dispatched. A throw from the completed handler
reaches the catch block of the route, which also answers 400. The expired
handler and the two payment intent handlers never throw, so those paths
answer 200. Returns the HTTP status and the resulting state. -/
def webhookEndpoint (env : Env) (req : WebhookRequest) (w : World) :
    Nat × World :=
  if !req.hasSignature then (400, w)
  else if !req.signatureValid then (400, w)
  else
    match req.event with
    | .checkoutSessionCompleted s =>
      let r := handleCheckoutSessionCompleted env s w
      (if r.1 then 200 else 400, r.2)
    | .checkoutSessionExpired s => (200, handleCheckoutSessionExpired env s w)
    | .paymentIntentSucceeded => (200, w)
    | .paymentIntentFailed => (200, w)
    | .otherEvent => (200, w)

/-- Outcome of the Stripe refunds.create call: either a created refund
with its id and refunded amount in cents, or a thrown error message. -/
inductive GatewayOutcome
  | ok (refundId : String) (amountCents : Nat)
  | err (msg : String)
deriving DecidableEq, Repr

/-- Result shape shared by PaymentService.processRefund and
AdminService.processRefund. -/
structure RefundResult where
  success : Bool
  refundId : Option String
  amount : Option ℚ
  message : Option String
deriving DecidableEq, Repr

/-- PaymentService.processRefund: wraps the gateway call; on success it
reports the refund id and the refunded amount in dollars, on a thrown
gateway error it reports failure with the error message. -/
def PaymentService.processRefund (gw : GatewayOutcome)
    (_paymentIntentId : String) (_amount : Option ℚ) (_reason : Option String) :
    RefundResult :=
  match gw with
  | .ok rid cents =>
    { success := true
      refundId := some rid
      amount := some ((cents : ℚ) / 100)
      message := none }
  | .err m =>
    { success := false, refundId := none, amount := none, message := some m }

/-- Combined result of AdminService.processRefund: the returned value, the
resulting orders table, and whether the payment gateway was invoked. -/
structure RefundOutcome where
  result : RefundResult
  store : List Order
  gatewayCalled : Bool
deriving DecidableEq, Repr

/-- AdminService.processRefund: rejects a missing order and any order that
is not paid before calling the gateway (the further already-refunded check
in the source is unreachable); on gateway failure it forwards the failure
with the table untouched; on gateway success it writes the order to
refunded and returns the refund id and amount. -/
def AdminService.processRefund (gw : GatewayOutcome) (store : List Order)
    (orderId : String) (_reason : String) (_adminId : String) (now : Nat) :
    RefundOutcome :=
  match findOrder store orderId with
  | none =>
    ⟨{ success := false, refundId := none, amount := none,
       message := some "Order not found" }, store, false⟩
  | some o =>
    if o.status != .paid then
      ⟨{ success := false, refundId := none, amount := none,
         message := some "Only paid orders can be refunded" }, store, false⟩
    else
      let r := PaymentService.processRefund gw o.stripePaymentId
        (some o.amount) (some "requested_by_customer")
      if !r.success then ⟨r, store, true⟩
      else
        let updated := { o with status := .refunded, updatedAt := now }
        ⟨{ success := true, refundId := r.refundId, amount := r.amount,
           message := none }, setOrder store updated, true⟩

/-- Date comparison of the download route: now greater than the stored
expiry; a null expiry coerces to 0 in JavaScript. -/
def dateAfter (now : Nat) (expiry : Option Nat) : Bool :=
  match expiry with
  | some e => now > e
  | none => now > 0

/-- Last path segment of a URL string, as url.split(slash).pop(). -/
def lastSegment (url : String) : String :=
  ((url.splitOn "/").getLast?).getD ""

/-- Signed URL minted by the storage gateway for a key. -/
def mintSignedUrl (key : String) : String := "signed:" ++ key

/-- OrderService.getDownloadLinks: re-derives the storage keys by string
splitting the persisted URLs and mints fresh signed URLs; throws (none)
when the order is missing or either URL column is falsy. -/
def OrderService.getDownloadLinks (store : List Order) (orderId : String) :
    Option (String × String) :=
  match findOrder store orderId with
  | none => none
  | some o =>
    if !strTruthy o.pdfUrl || !strTruthy o.docxUrl then none
    else
      some (mintSignedUrl ("documents/" ++ orderId ++ "/"
              ++ lastSegment (o.pdfUrl.getD "")),
            mintSignedUrl ("documents/" ++ orderId ++ "/"
              ++ lastSegment (o.docxUrl.getD "")))

/-- Responses of the GET download route, with their HTTP status codes
given by DownloadResponse.httpStatus. -/
inductive DownloadResponse
  | notFound
  | notPaid
  | expired
  | notReady
  | serverError
  | links (pdfUrl docxUrl : String) (expiresAt : Option Nat)
deriving DecidableEq, Repr

/-- HTTP status code of each download route response. -/
def DownloadResponse.httpStatus : DownloadResponse → Nat
  | .notFound => 404
  | .notPaid => 403
  | .expired => 410
  | .notReady => 503
  | .serverError => 500
  | .links _ _ _ => 200

/-- The GET download route: looks the order up by id and email (404 when
no match), then checks paid status (403), then expiry (410), then URL
presence (503), and finally mints fresh signed links; a throw from
getDownloadLinks would fall to the error middleware (500). -/
def downloadRoute (now : Nat) (store : List Order) (orderId email : String) :
    DownloadResponse :=
  match OrderService.getOrderByIdAndEmail store orderId email with
  | none => .notFound
  | some o =>
    if o.status != .paid then .notPaid
    else if dateAfter now o.downloadExpiry then .expired
    else if !strTruthy o.pdfUrl || !strTruthy o.docxUrl then .notReady
    else
      match OrderService.getDownloadLinks store orderId with
      | none => .serverError
      | some (pdf, docx) => .links pdf docx o.downloadExpiry

/-- The GET order status route: 404 when the id and email lookup fails,
200 with the sanitized order otherwise. -/
def orderStatusRoute (store : List Order) (orderId email : String) : Nat :=
  match OrderService.getOrderByIdAndEmail store orderId email with
  | none => 404
  | some _ => 200

/-- Template catalogue fixture with one template priced at 9.99. -/
def sampleTemplates : List Template := [{ id := "tmpl1", price := 999 / 100 }]

/-- The pending order produced by createPendingOrder on the fixture
template at time 1000. -/
def ord0 : Order := {
  id := "ord1"
  templateId := "tmpl1"
  customerEmail := "alice@example.com"
  formData := "fd"
  stripePaymentId := ""
  amount := 999 / 100
  status := .pending
  pdfUrl := none
  docxUrl := none
  downloadExpiry := some (1000 + day7)
  createdAt := 1000
  updatedAt := 1000 }

/-- Collaborator outcomes with document generation and email succeeding. -/
def envOk : Env := { docGenOk := true, emailOk := true, now := 2000 }

/-- Checkout session metadata matching ord0. -/
def md1 : SessionMetadata := {
  orderId := "ord1"
  templateId := "tmpl1"
  customerEmail := "alice@example.com"
  formData := "fd" }

/-- Completed checkout session for ord0 reporting 999 cents. -/
def session1 : CheckoutSession := {
  sessionId := "cs_1"
  metadata := some md1
  paymentIntent := "pi_1"
  amountTotal := some 999 }

/-- Validly signed webhook request delivering session1 as completed. -/
def req1 : WebhookRequest := {
  hasSignature := true
  signatureValid := true
  event := .checkoutSessionCompleted session1 }

/-- Initial world holding only the pending order ord0. -/
def w0 : World := { store := [ord0], fulfillmentCount := 0, emailCount := 0 }

/-- The order ord0 after payment capture, before document generation. -/
def ordPaid : Order := { ord0 with status := .paid, stripePaymentId := "pi_1" }

/-- The order ordPaid with both generated document URLs recorded. -/
def ordPaidDocs : Order := { ordPaid with
  pdfUrl := some (generatedPdfUrl "ord1")
  docxUrl := some (generatedDocxUrl "ord1") }

/-- The order ordPaidDocs after a successful refund. -/
def ordRefunded : Order := { ordPaidDocs with status := .refunded }

/-- World after one successful delivery of req1 against w0. -/
def wPaid : World := (webhookEndpoint envOk req1 w0).2

/-- Expired checkout session carrying the metadata of ord0. -/
def sessionExpired1 : CheckoutSession := {
  sessionId := "cs_2"
  metadata := some md1
  paymentIntent := ""
  amountTotal := none }

/-- Completed session for ord0 reporting 500 cents, mismatching the
stored price of 9.99. -/
def session500 : CheckoutSession := { session1 with amountTotal := some 500 }

/-- Completed session for ord0 with a null amount total. -/
def sessionNoAmt : CheckoutSession := { session1 with amountTotal := none }

/-- Completed session for ord0 reporting zero cents. -/
def sessionZeroAmt : CheckoutSession := { session1 with amountTotal := some 0 }

/-- Collaborator outcomes where document generation fails. -/
def envDocFail : Env := { envOk with docGenOk := false }

/-- Validly signed request delivering session500 as completed. -/
def req500 : WebhookRequest :=
  { req1 with event := .checkoutSessionCompleted session500 }

/-- Validly signed request delivering sessionNoAmt as completed. -/
def reqNoAmt : WebhookRequest :=
  { req1 with event := .checkoutSessionCompleted sessionNoAmt }

/-- Validly signed request delivering sessionZeroAmt as completed. -/
def reqZeroAmt : WebhookRequest :=
  { req1 with event := .checkoutSessionCompleted sessionZeroAmt }

/-- Validly signed request delivering sessionExpired1 as expired. -/
def reqExpired : WebhookRequest :=
  { req1 with event := .checkoutSessionExpired sessionExpired1 }

/-- The 9.99 price is truthy as a JavaScript number. -/
theorem rat999_truthy : ((999 : ℚ) / 100 != 0) = true := by norm_num

/-- The mismatched 5.00 webhook amount is truthy. -/
theorem rat500_truthy : ((500 : ℚ) / 100 != 0) = true := by norm_num

/-- The 500 cent webhook amount divides to 5 dollars. -/
theorem rat500_val : ((500 : ℚ) / 100) = 5 := by norm_num

/-- A row found by findOrder has the id that was looked up. -/
theorem findOrder_eq_id (store : List Order) (pid : String) (o : Order)
    (h : findOrder store pid = some o) : o.id = pid := by
  have hp := List.find?_some h
  exact eq_of_beq hp

/-- Writing a row through setOrder makes it the row that findOrder
returns for its id, provided that id was present. -/
theorem findOrder_setOrder (store : List Order) (pid : String) (o o2 : Order)
    (h : findOrder store pid = some o) (hid : o2.id = pid) :
    findOrder (setOrder store o2) pid = some o2 := by
  have hoid : o.id = pid := findOrder_eq_id store pid o h
  have hpf : ((fun y : Order => y.id == pid)
        ∘ (fun x : Order => if x.id == o2.id then o2 else x))
      = fun y : Order => y.id == pid := by
    funext x
    by_cases hx : x.id = o2.id
    · simp [hx, hid]
    · simp [hx]
  unfold findOrder setOrder
  rw [List.find?_map, hpf]
  unfold findOrder at h
  rw [h]
  simp [hoid, ← hid]

/-- The status column after applyStatusUpdate is the requested status,
whatever the previous one. -/
theorem applyStatusUpdate_status (o : Order) (st : OrderStatus)
    (add : AdditionalData) (now : Nat) :
    (applyStatusUpdate o st add now).status = st := by
  cases hs : strTruthy add.stripePaymentId <;> cases ha : amtTruthy add.amount <;>
    simp [applyStatusUpdate, hs, ha]

/-- applyStatusUpdate never touches the downloadExpiry column. -/
theorem applyStatusUpdate_downloadExpiry (o : Order) (st : OrderStatus)
    (add : AdditionalData) (now : Nat) :
    (applyStatusUpdate o st add now).downloadExpiry = o.downloadExpiry := by
  cases hs : strTruthy add.stripePaymentId <;> cases ha : amtTruthy add.amount <;>
    simp [applyStatusUpdate, hs, ha]

/-- The amount column after applyStatusUpdate: overwritten by the passed
amount exactly when that amount is truthy. -/
theorem applyStatusUpdate_amount (o : Order) (st : OrderStatus)
    (add : AdditionalData) (now : Nat) :
    (applyStatusUpdate o st add now).amount =
      if amtTruthy add.amount then add.amount.getD 0 else o.amount := by
  cases hs : strTruthy add.stripePaymentId <;> cases ha : amtTruthy add.amount <;>
    simp [applyStatusUpdate, hs, ha]

/-- applyDocsUpdate never touches the downloadExpiry column. -/
theorem applyDocsUpdate_downloadExpiry (o : Order) (pu du : Option String)
    (now : Nat) :
    (applyDocsUpdate o pu du now).downloadExpiry = o.downloadExpiry := by
  cases pu <;> cases du <;> simp [applyDocsUpdate]

/-- C1 counterexample: delivering the same validly signed
checkout.session.completed event (same event id) twice against the
pending order performs two fulfillment invocations and sends two emails,
not one — the webhook endpoint has no event id deduplication, so the
second delivery is fully reprocessed. -/
theorem c1_redelivery_counterexample :
    (webhookEndpoint envOk req1 (webhookEndpoint envOk req1 w0).2).2.fulfillmentCount = 2 ∧
    (webhookEndpoint envOk req1 (webhookEndpoint envOk req1 w0).2).2.emailCount = 2 ∧
    ¬ (webhookEndpoint envOk req1 (webhookEndpoint envOk req1 w0).2).2.fulfillmentCount = 1 := by
  refine ⟨?_, ?_, ?_⟩ <;>
  simp +decide [webhookEndpoint, req1, handleCheckoutSessionCompleted, metaTruthy,
    session1, md1, envOk, w0, ord0, OrderService.updateOrderStatus, findOrder,
    applyStatusUpdate, strTruthy, amtTruthy, OrderService.updateOrderDocuments,
    setOrder, applyDocsUpdate, generatedPdfUrl, generatedDocxUrl, rat999_truthy]

/-- C1 amended: the webhook endpoint performs no deduplication by event
id; whatever the current status, counters and recorded documents of the
order, every delivery of the validly signed completed event runs the full
handler again, so two deliveries of the same event produce two fulfillment
invocations and two emails, each answered 200, with the order ending paid. -/
theorem c1_no_dedup_redelivery_reprocesses (st : OrderStatus)
    (pdf docx : Option String) (f e : Nat) :
    (webhookEndpoint envOk req1
        (webhookEndpoint envOk req1
          ⟨[{ ord0 with status := st, pdfUrl := pdf, docxUrl := docx }], f, e⟩).2).1 = 200 ∧
    (webhookEndpoint envOk req1
        (webhookEndpoint envOk req1
          ⟨[{ ord0 with status := st, pdfUrl := pdf, docxUrl := docx }], f, e⟩).2).2.fulfillmentCount
      = f + 2 ∧
    (webhookEndpoint envOk req1
        (webhookEndpoint envOk req1
          ⟨[{ ord0 with status := st, pdfUrl := pdf, docxUrl := docx }], f, e⟩).2).2.emailCount
      = e + 2 ∧
    (findOrder (webhookEndpoint envOk req1
        (webhookEndpoint envOk req1
          ⟨[{ ord0 with status := st, pdfUrl := pdf, docxUrl := docx }], f, e⟩).2).2.store
        "ord1").map Order.status = some .paid := by
  refine ⟨?_, ?_, ?_, ?_⟩ <;>
  simp +decide [webhookEndpoint, req1, handleCheckoutSessionCompleted, metaTruthy,
    session1, md1, envOk, ord0, OrderService.updateOrderStatus, findOrder,
    applyStatusUpdate, strTruthy, amtTruthy, OrderService.updateOrderDocuments,
    setOrder, applyDocsUpdate, generatedPdfUrl, generatedDocxUrl, rat999_truthy]

/-- C2 counterexample: a session expired event delivered against an
already paid order does not fail with InvalidTransition and does not
leave the order unchanged — the handler overwrites the paid order to
failed. -/
theorem c2_expired_overwrites_paid_counterexample :
    (findOrder (handleCheckoutSessionExpired envOk sessionExpired1
        ⟨[ordPaid], 0, 0⟩).store "ord1").map Order.status = some .failed ∧
    ¬ (findOrder (handleCheckoutSessionExpired envOk sessionExpired1
        ⟨[ordPaid], 0, 0⟩).store "ord1").map Order.status = some .paid := by
  constructor <;>
  simp +decide [handleCheckoutSessionExpired, sessionExpired1, md1, envOk,
    ordPaid, ord0, OrderService.updateOrderStatus, findOrder,
    applyStatusUpdate, strTruthy, amtTruthy, setOrder]

/-- C2 amended: updateOrderStatus has no transition table and no
conditional from-state check: for every store, order id, requested status
and additional data, the write succeeds exactly when the row exists and
the resulting status is the requested one whatever the current status;
there is no InvalidTransition outcome. -/
theorem c2_updateOrderStatus_unconditional (store : List Order) (pid : String)
    (st : OrderStatus) (add : AdditionalData) (now : Nat) :
    (OrderService.updateOrderStatus store pid st add now).map (fun p => p.1.status)
      = (findOrder store pid).map (fun _ => st) := by
  unfold OrderService.updateOrderStatus
  cases h : findOrder store pid <;> simp [applyStatusUpdate_status]

/-- C3 counterexample: a webhook request whose signature is valid but
whose document generation fails during the completed handler is answered
400, not 200 — fulfillment failure is indistinguishable from signature
failure at the HTTP level. -/
theorem c3_fulfillment_failure_answers_400_counterexample :
    (webhookEndpoint envDocFail req1 w0).1 = 400 ∧ req1.signatureValid = true := by
  constructor
  · simp +decide [webhookEndpoint, req1, handleCheckoutSessionCompleted, metaTruthy,
      session1, md1, envDocFail, envOk, w0, ord0, OrderService.updateOrderStatus,
      findOrder, applyStatusUpdate, strTruthy, amtTruthy, rat999_truthy]
  · rfl

/-- C3 amended: the endpoint answers 400 with the state untouched when
the signature header is missing or the signature is invalid, so an
unverified body is never processed; but for a validly signed completed
event the answer is 200 only when the handler run succeeds, and 400
whenever the handler throws — including document generation or email
failures; an expired event is always answered 200. -/
theorem c3_response_policy :
    (∀ env sv ev w, webhookEndpoint env ⟨false, sv, ev⟩ w = (400, w)) ∧
    (∀ env ev w, webhookEndpoint env ⟨true, false, ev⟩ w = (400, w)) ∧
    (∀ env s w, webhookEndpoint env ⟨true, true, .checkoutSessionCompleted s⟩ w =
        ((if (handleCheckoutSessionCompleted env s w).1 then 200 else 400),
         (handleCheckoutSessionCompleted env s w).2)) ∧
    (∀ env s w, webhookEndpoint env ⟨true, true, .checkoutSessionExpired s⟩ w =
        (200, handleCheckoutSessionExpired env s w)) :=
  ⟨fun _ _ _ _ => rfl, fun _ _ _ => rfl, fun _ _ _ => rfl, fun _ _ _ => rfl⟩

/-- C4 counterexample: immediately after createPendingOrder the order is
still pending yet already carries downloadExpiry equal to creation time
plus seven days; after the payment confirmed delivery at time 2000 the
expiry is unchanged, so it was not set at the pending to paid transition
as now plus seven days. -/
theorem c4_expiry_set_at_creation_counterexample :
    (OrderService.createPendingOrder sampleTemplates [] "tmpl1" "fd"
        "alice@example.com" 1000 "ord1").map
      (fun p => (p.1.status, p.1.downloadExpiry)) = some (.pending, some (1000 + day7)) ∧
    (findOrder wPaid.store "ord1").map Order.downloadExpiry = some (some (1000 + day7)) ∧
    ¬ (findOrder wPaid.store "ord1").map Order.downloadExpiry = some (some (envOk.now + day7)) := by
  refine ⟨?_, ?_, ?_⟩ <;>
  simp +decide [OrderService.createPendingOrder, sampleTemplates, wPaid,
    webhookEndpoint, req1, handleCheckoutSessionCompleted, metaTruthy,
    session1, md1, envOk, w0, ord0, day7, OrderService.updateOrderStatus, findOrder,
    applyStatusUpdate, strTruthy, amtTruthy, OrderService.updateOrderDocuments,
    setOrder, applyDocsUpdate, generatedPdfUrl, generatedDocxUrl, rat999_truthy]

/-- C4 amended: downloadExpiry is set exactly once, at order creation, to
creation time plus seven days while the order is still pending; the
status update used for every webhook event and the document URL update
both leave it untouched, so re-delivery never resets it. -/
theorem c4_expiry_set_once_at_creation :
    (∀ templates store tid fd em now nid p,
      OrderService.createPendingOrder templates store tid fd em now nid = some p →
      p.1.status = .pending ∧ p.1.downloadExpiry = some (now + day7)) ∧
    (∀ store pid st add now,
      (OrderService.updateOrderStatus store pid st add now).map
          (fun p => p.1.downloadExpiry)
        = (findOrder store pid).map Order.downloadExpiry) ∧
    (∀ o pu du now, (applyDocsUpdate o pu du now).downloadExpiry = o.downloadExpiry) := by
  refine ⟨?_, ?_, applyDocsUpdate_downloadExpiry⟩
  · intro templates store tid fd em now nid p h
    unfold OrderService.createPendingOrder at h
    cases hf : templates.find? (fun t => t.id == tid) with
    | none => rw [hf] at h; simp at h
    | some t =>
      rw [hf] at h
      simp only [Option.some.injEq] at h
      rw [← h]
      exact ⟨rfl, rfl⟩
  · intro store pid st add now
    unfold OrderService.updateOrderStatus
    cases h : findOrder store pid <;> simp [applyStatusUpdate_downloadExpiry]

/-- C4 witness: the amended theorem applied to the fixture creation call
at time 1000, whose hypothesis is discharged by reduction. -/
theorem c4_expiry_set_once_at_creation_witness :
    ord0.status = .pending ∧ ord0.downloadExpiry = some (1000 + day7) :=
  c4_expiry_set_once_at_creation.1 sampleTemplates [] "tmpl1" "fd"
    "alice@example.com" 1000 "ord1" (ord0, [ord0]) rfl

/-- C5 counterexample: along the reachable chain create, pay, fulfill,
refund, the refunded order still records both document artifacts — the
artifacts imply paid invariant fails after processRefund. -/
theorem c5_refunded_keeps_artifacts_counterexample :
    (OrderService.createPendingOrder sampleTemplates [] "tmpl1" "fd"
        "alice@example.com" 1000 "ord1").map (fun p => p.2) = some w0.store ∧
    (findOrder (AdminService.processRefund (.ok "re_1" 999) wPaid.store
        "ord1" "fraud" "admin1" 5000).store "ord1").map
      (fun o => (o.status, strTruthy o.pdfUrl, strTruthy o.docxUrl)) =
      some (.refunded, true, true) := by
  constructor
  · simp +decide [OrderService.createPendingOrder, sampleTemplates, w0, ord0]
  · simp +decide [AdminService.processRefund, PaymentService.processRefund, wPaid,
      webhookEndpoint, req1, handleCheckoutSessionCompleted, metaTruthy,
      session1, md1, envOk, w0, ord0, OrderService.updateOrderStatus, findOrder,
      applyStatusUpdate, strTruthy, amtTruthy, OrderService.updateOrderDocuments,
      setOrder, applyDocsUpdate, generatedPdfUrl, generatedDocxUrl, rat999_truthy]

/-- C5 amended: a successful refund rewrites only the status and the
updatedAt columns of the paid order; the document pointers are left in
place, so artifacts recorded before the refund remain recorded on the
refunded order until the separate expiry cleanup, which only processes
paid orders. -/
theorem c5_refund_preserves_artifact_pointers (store : List Order) (o : Order)
    (rid reason adminId : String) (cents now : Nat)
    (hfind : findOrder store o.id = some o) (hpaid : o.status = .paid) :
    (AdminService.processRefund (.ok rid cents) store o.id reason adminId now).result.success
      = true ∧
    findOrder (AdminService.processRefund (.ok rid cents) store o.id reason adminId now).store
        o.id = some { o with status := .refunded, updatedAt := now } := by
  unfold AdminService.processRefund
  rw [hfind]
  simp only [hpaid, PaymentService.processRefund]
  refine ⟨by simp, ?_⟩
  simp only [show (OrderStatus.paid != OrderStatus.paid) = false by decide]
  simp only [Bool.false_eq_true, if_false, Bool.not_true]
  exact findOrder_setOrder store o.id o _ hfind rfl

/-- C5 witness: the amended theorem applied to the fulfilled paid order,
with both hypotheses discharged by reduction; the artifact pointers of
the refunded row are untouched. -/
theorem c5_refund_preserves_artifact_pointers_witness :
    (AdminService.processRefund (.ok "re_9" 999) [ordPaidDocs] "ord1" "r" "a" 9000).result.success
      = true ∧
    findOrder (AdminService.processRefund (.ok "re_9" 999) [ordPaidDocs] "ord1" "r" "a" 9000).store
        "ord1" = some { ordPaidDocs with status := .refunded, updatedAt := 9000 } :=
  c5_refund_preserves_artifact_pointers [ordPaidDocs] ordPaidDocs "re_9" "r" "a"
    999 9000 rfl rfl

/-- C6 counterexample: a completed webhook reporting 500 cents against
the order stored at 9.99 overwrites the stored amount with 5 — the
webhook amount is written over the agreed price, not verified against
it. -/
theorem c6_webhook_overwrites_amount_counterexample :
    (findOrder (webhookEndpoint envOk req500 w0).2.store "ord1").map Order.amount
      = some 5 ∧
    ¬ (findOrder (webhookEndpoint envOk req500 w0).2.store "ord1").map Order.amount
      = some ord0.amount := by
  constructor
  · simp +decide [webhookEndpoint, req1, req500, handleCheckoutSessionCompleted,
      metaTruthy, session500, session1, md1, envOk, w0, ord0,
      OrderService.updateOrderStatus, findOrder, applyStatusUpdate, strTruthy,
      amtTruthy, OrderService.updateOrderDocuments, setOrder, applyDocsUpdate,
      generatedPdfUrl, generatedDocxUrl, rat500_truthy, rat500_val]
  · simp +decide [webhookEndpoint, req1, req500, handleCheckoutSessionCompleted,
      metaTruthy, session500, session1, md1, envOk, w0, ord0,
      OrderService.updateOrderStatus, findOrder, applyStatusUpdate, strTruthy,
      amtTruthy, OrderService.updateOrderDocuments, setOrder, applyDocsUpdate,
      generatedPdfUrl, generatedDocxUrl, rat500_truthy, rat500_val]
    norm_num

/-- C6 amended: the status update overwrites the stored amount with the
amount passed from the webhook whenever that amount is truthy, with no
verification against the stored value; only a null or zero amount total
leaves the stored price in place, as the two delivery conjuncts show for
every initial status and counters. -/
theorem c6_amount_overwritten_when_truthy (st : OrderStatus) (f e : Nat) :
    (∀ o stReq add now, (applyStatusUpdate o stReq add now).amount =
      if amtTruthy add.amount then add.amount.getD 0 else o.amount) ∧
    (findOrder (webhookEndpoint envOk reqNoAmt
        ⟨[{ ord0 with status := st }], f, e⟩).2.store "ord1").map Order.amount
      = some ord0.amount ∧
    (findOrder (webhookEndpoint envOk reqZeroAmt
        ⟨[{ ord0 with status := st }], f, e⟩).2.store "ord1").map Order.amount
      = some ord0.amount := by
  refine ⟨applyStatusUpdate_amount, ?_, ?_⟩ <;>
  simp +decide [webhookEndpoint, req1, reqNoAmt, reqZeroAmt,
    handleCheckoutSessionCompleted, metaTruthy, sessionNoAmt, sessionZeroAmt,
    session1, md1, envOk, ord0, OrderService.updateOrderStatus, findOrder,
    applyStatusUpdate, strTruthy, amtTruthy, OrderService.updateOrderDocuments,
    setOrder, applyDocsUpdate, generatedPdfUrl, generatedDocxUrl]

/-- C7: processRefund refuses any order that is not paid without touching
the store or the gateway; when the order is paid and the gateway call
fails, the failure is surfaced and the store is unchanged, so the order
stays paid; when the gateway call succeeds, the result carries the refund
id and amount and the order is rewritten to refunded. -/
theorem c7_refund_gateway_policy (store : List Order) (o : Order)
    (pid reason adminId : String) (now : Nat) (gw : GatewayOutcome)
    (hfind : findOrder store pid = some o) :
    (o.status ≠ .paid →
      AdminService.processRefund gw store pid reason adminId now =
        ⟨⟨false, none, none, some "Only paid orders can be refunded"⟩, store, false⟩) ∧
    (o.status = .paid → ∀ m, gw = .err m →
      AdminService.processRefund gw store pid reason adminId now =
        ⟨⟨false, none, none, some m⟩, store, true⟩) ∧
    (o.status = .paid → ∀ rid cents, gw = .ok rid cents →
      (AdminService.processRefund gw store pid reason adminId now).result =
        ⟨true, some rid, some ((cents : ℚ) / 100), none⟩ ∧
      findOrder (AdminService.processRefund gw store pid reason adminId now).store pid =
        some { o with status := .refunded, updatedAt := now }) := by
  refine ⟨?_, ?_, ?_⟩
  · intro hnp
    unfold AdminService.processRefund
    rw [hfind]
    have : (o.status != OrderStatus.paid) = true := by
      cases h : o.status <;> simp_all
    simp [this]
  · rintro hp m rfl
    unfold AdminService.processRefund
    rw [hfind]
    simp [hp, PaymentService.processRefund]
  · rintro hp rid cents rfl
    unfold AdminService.processRefund
    rw [hfind]
    simp only [hp, PaymentService.processRefund]
    have hne : (OrderStatus.paid != OrderStatus.paid) = false := by decide
    simp only [hne, Bool.false_eq_true, if_false, Bool.not_true]
    constructor
    · simp
    · exact findOrder_setOrder store pid o _ hfind (findOrder_eq_id store pid o hfind)

/-- C7 witness: the theorem applied to the paid order with a failing
gateway: the error is surfaced and the store is returned unchanged, still
holding the paid order. -/
theorem c7_refund_gateway_policy_witness :
    AdminService.processRefund (.err "gateway unavailable") [ordPaidDocs]
        "ord1" "r" "a" 9000 =
      ⟨⟨false, none, none, some "gateway unavailable"⟩, [ordPaidDocs], true⟩ :=
  (c7_refund_gateway_policy [ordPaidDocs] ordPaidDocs "ord1" "r" "a" 9000
    (.err "gateway unavailable") rfl).2.1 rfl "gateway unavailable" rfl

/-- C8 counterexample: after a first successful refund of the paid order,
repeating the refund is rejected with a failure carrying no refund id —
it does not return the original refund result — although no second
gateway call is made. -/
theorem c8_repeat_refund_counterexample :
    (AdminService.processRefund (.ok "re_1" 999) wPaid.store "ord1" "r" "a" 5000).result.refundId
      = some "re_1" ∧
    (AdminService.processRefund (.ok "re_2" 999)
        (AdminService.processRefund (.ok "re_1" 999) wPaid.store "ord1" "r" "a" 5000).store
        "ord1" "r" "a" 6000).result =
      ⟨false, none, none, some "Only paid orders can be refunded"⟩ ∧
    (AdminService.processRefund (.ok "re_2" 999)
        (AdminService.processRefund (.ok "re_1" 999) wPaid.store "ord1" "r" "a" 5000).store
        "ord1" "r" "a" 6000).gatewayCalled = false := by
  refine ⟨?_, ?_, ?_⟩ <;>
  simp +decide [AdminService.processRefund, PaymentService.processRefund, wPaid,
    webhookEndpoint, req1, handleCheckoutSessionCompleted, metaTruthy,
    session1, md1, envOk, w0, ord0, OrderService.updateOrderStatus, findOrder,
    applyStatusUpdate, strTruthy, amtTruthy, OrderService.updateOrderDocuments,
    setOrder, applyDocsUpdate, generatedPdfUrl, generatedDocxUrl, rat999_truthy]

/-- C8 amended: a refund against any order that is not paid — pending,
failed, or already refunded after a first successful refund — is rejected
with the only paid orders failure, makes no gateway call and leaves the
store unchanged; the repeat does not return the original refund result. -/
theorem c8_non_paid_refund_rejected (store : List Order) (o : Order)
    (pid reason adminId : String) (now : Nat) (gw : GatewayOutcome)
    (hfind : findOrder store pid = some o) (hnp : o.status ≠ .paid) :
    AdminService.processRefund gw store pid reason adminId now =
      ⟨⟨false, none, none, some "Only paid orders can be refunded"⟩, store, false⟩ := by
  unfold AdminService.processRefund
  rw [hfind]
  have : (o.status != OrderStatus.paid) = true := by
    cases h : o.status <;> simp_all
  simp [this]

/-- C8 witness: the amended theorem applied to the already refunded
order, both hypotheses discharged by reduction. -/
theorem c8_non_paid_refund_rejected_witness :
    AdminService.processRefund (.ok "re_2" 999) [ordRefunded] "ord1" "r" "a" 9000 =
      ⟨⟨false, none, none, some "Only paid orders can be refunded"⟩, [ordRefunded], false⟩ :=
  c8_non_paid_refund_rejected [ordRefunded] ordRefunded "ord1" "r" "a" 9000
    (.ok "re_2" 999) rfl (by decide)

/-- C9: the download route runs its checks in order — missing order or
email mismatch answers NotFound, a non paid status answers Forbidden, an
elapsed expiry answers Gone with HTTP status 410 regardless of whether
the artifact pointers are present, and only then are missing artifacts
reported NotReady. -/
theorem c9_download_check_order (now : Nat) (store : List Order)
    (oid email : String) :
    (OrderService.getOrderByIdAndEmail store oid email = none →
      downloadRoute now store oid email = .notFound) ∧
    (∀ o, OrderService.getOrderByIdAndEmail store oid email = some o →
      o.status ≠ .paid → downloadRoute now store oid email = .notPaid) ∧
    (∀ o, OrderService.getOrderByIdAndEmail store oid email = some o →
      o.status = .paid → dateAfter now o.downloadExpiry = true →
      downloadRoute now store oid email = .expired) ∧
    (∀ o, OrderService.getOrderByIdAndEmail store oid email = some o →
      o.status = .paid → dateAfter now o.downloadExpiry = false →
      (strTruthy o.pdfUrl = false ∨ strTruthy o.docxUrl = false) →
      downloadRoute now store oid email = .notReady) ∧
    DownloadResponse.expired.httpStatus = 410 := by
  refine ⟨?_, ?_, ?_, ?_, rfl⟩
  · intro h
    unfold downloadRoute
    rw [h]
  · intro o h hnp
    unfold downloadRoute
    rw [h]
    have : (o.status != OrderStatus.paid) = true := by
      cases hs : o.status <;> simp_all
    simp [this]
  · intro o h hp hexp
    unfold downloadRoute
    rw [h]
    simp [hp, hexp]
  · intro o h hp hexp hmiss
    unfold downloadRoute
    rw [h]
    rcases hmiss with hm | hm <;> simp [hp, hexp, hm]

/-- C9 witness: the theorem applied one millisecond past expiry to the
paid order whose artifact pointers are both still present — the answer is
Gone even though the artifacts exist. -/
theorem c9_download_check_order_witness :
    downloadRoute (1000 + day7 + 1) [ordPaidDocs] "ord1" "alice@example.com"
      = .expired :=
  (c9_download_check_order (1000 + day7 + 1) [ordPaidDocs] "ord1"
    "alice@example.com").2.2.1 ordPaidDocs rfl rfl (by decide)

/-- C10: the customer lookup matches the supplied email against the
stored customerEmail by exact string equality, so any returned order has
exactly the queried id and email; when the lookup fails both customer
routes answer not found, and a query differing from the stored email only
in letter case finds nothing. -/
theorem c10_email_match_case_sensitive (store : List Order) (oid email : String) :
    (∀ o, OrderService.getOrderByIdAndEmail store oid email = some o →
      o.id = oid ∧ o.customerEmail = email) ∧
    (OrderService.getOrderByIdAndEmail store oid email = none →
      orderStatusRoute store oid email = 404 ∧
      ∀ now, downloadRoute now store oid email = .notFound) ∧
    OrderService.getOrderByIdAndEmail [ord0] "ord1" "Alice@example.com" = none := by
  refine ⟨?_, ?_, by decide⟩
  · intro o h
    have hp := List.find?_some h
    simp only [Bool.and_eq_true, beq_iff_eq] at hp
    exact hp
  · intro h
    constructor
    · unfold orderStatusRoute
      rw [h]
    · intro now
      unfold downloadRoute
      rw [h]

/-- C10 witness: the theorem applied to the fixture store and the
case-varied email: the lookup hypothesis is discharged by reduction and
both routes answer not found. -/
theorem c10_email_match_case_sensitive_witness :
    orderStatusRoute [ord0] "ord1" "Alice@example.com" = 404 ∧
    downloadRoute 3000 [ord0] "ord1" "Alice@example.com" = .notFound :=
  ⟨((c10_email_match_case_sensitive [ord0] "ord1" "Alice@example.com").2.1
      (by decide)).1,
   ((c10_email_match_case_sensitive [ord0] "ord1" "Alice@example.com").2.1
      (by decide)).2 3000⟩
